import Mathlib

/-!
Verification development for the mercury-rs client library. The
embedding models the JSON data layer of src/article.rs and the request
pipeline of src/lib.rs: JSON values, the Article record with its
serde-derived deserializer and serializer, the untagged ParserResult
envelope, the error taxonomy of src/error.rs, and the parse operation.
-/

/-- JSON values, with objects modelled as ordered key-value lists.
Field lookup takes the first binding for a key, which agrees with the
serde map visitor on objects without duplicate keys; theorems that
quantify over objects therefore carry a no-duplicate-keys hypothesis.
Numbers are modelled as integers, which covers every value the u64
fields of the schema can legally receive. -/
inductive Json where
  | null : Json
  | bool : Bool → Json
  | num : Int → Json
  | str : String → Json
  | arr : List Json → Json
  | obj : List (String × Json) → Json

/-- Lookup of the first binding of a key in a JSON object. -/
def Json.getField (kvs : List (String × Json)) (k : String) : Option Json :=
  match kvs with
  | [] => none
  | (k2, v) :: rest => if k2 = k then some v else Json.getField rest k

/-- Uri is modelled as the raw string, validity being established at
parse time. The validity check is a character-level approximation of
the http crate Uri parser: a non-empty string of visible ASCII
characters, excluding the characters that parser always rejects
(double quote, angle brackets, backslash, caret, backquote, braces and
the vertical bar). -/
structure Uri where
  raw : String
deriving DecidableEq, Repr

/-- Character admissibility for the Uri model. -/
def isUriChar (c : Char) : Bool :=
  let n := c.toNat
  decide (0x21 ≤ n ∧ n ≤ 0x7e ∧ n ≠ 0x22 ∧ n ≠ 0x3c ∧ n ≠ 0x3e ∧
    n ≠ 0x5c ∧ n ≠ 0x5e ∧ n ≠ 0x60 ∧ n ≠ 0x7b ∧ n ≠ 0x7c ∧ n ≠ 0x7d)

/-- Fallible Uri parsing, the model of str::parse::<Uri>. -/
def Uri.parseStr (s : String) : Option Uri :=
  if s.length = 0 then none
  else if s.toList.all isUriChar then some ⟨s⟩ else none

/-- DateTime is modelled as the raw RFC 3339 string accepted by the
chrono deserializer. -/
structure DateTime where
  raw : String
deriving DecidableEq, Repr

/-- Numeric value of a two-digit pair. -/
def val2 (a b : Char) : Nat := (a.toNat - 0x30) * 10 + (b.toNat - 0x30)

/-- Gregorian leap-year rule. -/
def isLeapYear (y : Nat) : Bool := y % 4 == 0 && (y % 100 != 0 || y % 400 == 0)

/-- Number of days in a month of a given year. -/
def daysInMonth (y m : Nat) : Nat :=
  if m == 2 then (if isLeapYear y then 29 else 28)
  else if m == 4 || m == 6 || m == 9 || m == 11 then 30
  else 31

/-- Removes a leading run of decimal digits. -/
def dropDigits : List Char → List Char
  | [] => []
  | c :: rest => if c.isDigit then dropDigits rest else c :: rest

/-- RFC 3339 numeric or Zulu offset. -/
def rfc3339Offset : List Char → Bool
  | ['Z'] => true
  | [s, h1, h2, ':', m1, m2] =>
    (s == '+' || s == '-') && h1.isDigit && h2.isDigit && m1.isDigit && m2.isDigit
      && decide (val2 h1 h2 ≤ 23) && decide (val2 m1 m2 ≤ 59)
  | _ => false

/-- Optional fractional seconds followed by an offset. -/
def rfc3339Tail : List Char → Bool
  | '.' :: rest =>
    match rest with
    | c :: _ => c.isDigit && rfc3339Offset (dropDigits rest)
    | [] => false
  | cs => rfc3339Offset cs

/-- Structural RFC 3339 validity, modelling the chrono datetime parser
used by the date_published deserializer: date, the T separator, time
with calendar-exact day ranges, optional fractional seconds and an
offset. Lowercase separators, which chrono also tolerates, are not
modelled; a leap second of 60 is accepted as chrono does. -/
def isValidRfc3339 (s : String) : Bool :=
  match s.toList with
  | y1 :: y2 :: y3 :: y4 :: '-' :: m1 :: m2 :: '-' :: d1 :: d2 :: 'T' ::
      h1 :: h2 :: ':' :: n1 :: n2 :: ':' :: t1 :: t2 :: rest =>
    y1.isDigit && y2.isDigit && y3.isDigit && y4.isDigit
      && m1.isDigit && m2.isDigit && d1.isDigit && d2.isDigit
      && h1.isDigit && h2.isDigit && n1.isDigit && n2.isDigit
      && t1.isDigit && t2.isDigit
      && decide (1 ≤ val2 m1 m2) && decide (val2 m1 m2 ≤ 12)
      && decide (1 ≤ val2 d1 d2)
      && decide (val2 d1 d2 ≤ daysInMonth (val2 y1 y2 * 100 + val2 y3 y4) (val2 m1 m2))
      && decide (val2 h1 h2 ≤ 23) && decide (val2 n1 n2 ≤ 59) && decide (val2 t1 t2 ≤ 60)
      && rfc3339Tail rest
  | _ => false

/-- Text direction of parsed body content, from src/article.rs. -/
inductive TextDirection where
  | Ltr : TextDirection
  | Rtl : TextDirection
deriving BEq, DecidableEq, Repr

/-- Returns true if the direction is a Ltr value. -/
def TextDirection.is_ltr (d : TextDirection) : Bool := d == TextDirection.Ltr

/-- Returns true if the direction is a Rtl value. -/
def TextDirection.is_rtl (d : TextDirection) : Bool := d == TextDirection.Rtl

/-- Default text direction, from the Default impl in src/article.rs. -/
def TextDirection.default : TextDirection := TextDirection.Ltr

/-- Article record of src/article.rs. The u64 fields are modelled as
Nat with a decode-time range check; the private serde-skipped unit
field _ext carries no data and is omitted. -/
structure Article where
  author : Option String
  content : String
  date_published : Option DateTime
  dek : Option String
  direction : TextDirection
  excerpt : String
  lead_image_url : Option Uri
  next_page_url : Option Uri
  rendered_pages : Nat
  title : String
  total_pages : Nat
  url : Uri
  word_count : Nat
deriving DecidableEq, Repr

/-- Deserializer for a plain Option String field: a missing key and an
explicit null both give none, a string gives some, anything else is a
type error. -/
def decodeOptString : Option Json → Except String (Option String)
  | none => .ok none
  | some .null => .ok none
  | some (.str s) => .ok (some s)
  | some _ => .error "invalid type"

/-- Deserializer for a String field carrying the serde default
attribute: a missing key gives the empty string. -/
def decodeDefString : Option Json → Except String String
  | none => .ok ""
  | some (.str s) => .ok s
  | some _ => .error "invalid type"

/-- Deserializer for a u64 field carrying a serde default: a missing
key gives the default, a number is accepted when it lies in the u64
range. -/
def decodeDefU64 (dflt : Nat) : Option Json → Except String Nat
  | none => .ok dflt
  | some (.num n) => if 0 ≤ n ∧ n < 2 ^ 64 then .ok n.toNat else .error "invalid number"
  | some _ => .error "invalid type"

/-- Deserializer for the Option DateTime field: missing and null give
none, a string must be RFC 3339. -/
def decodeDate : Option Json → Except String (Option DateTime)
  | none => .ok none
  | some .null => .ok none
  | some (.str s) => if isValidRfc3339 s then .ok (some ⟨s⟩) else .error "invalid datetime"
  | some _ => .error "invalid type"

/-- Deserializer of the serde_uri_opt module of src/article.rs. The
field carries a with attribute and no serde default, so serde treats it
as required: a missing key is a hard missing-field error and the custom
function is only reached for present keys. An explicit null yields
none, a string must parse as a Uri, and a string that fails to parse is
a hard error. -/
def decodeUriOpt : Option Json → Except String (Option Uri)
  | none => .error "missing field"
  | some .null => .ok none
  | some (.str s) =>
    match Uri.parseStr s with
    | some u => .ok (some u)
    | none => .error "invalid uri"
  | some _ => .error "invalid type"

/-- Deserializer of the serde_uri module of src/article.rs for the
mandatory url field: the key must be present and hold a parsable
string. -/
def decodeUriReq : Option Json → Except String Uri
  | some (.str s) =>
    match Uri.parseStr s with
    | some u => .ok u
    | none => .error "invalid uri"
  | some _ => .error "invalid type"
  | none => .error "missing field url"

/-- Deserializer for the TextDirection field. The field carries no
serde default attribute in src/article.rs, so a missing key is a
missing-field error; present values follow the lowercase variant
renaming. -/
def decodeDirection : Option Json → Except String TextDirection
  | some (.str s) =>
    if s == "ltr" then .ok TextDirection.Ltr
    else if s == "rtl" then .ok TextDirection.Rtl
    else .error "unknown variant"
  | some _ => .error "invalid type"
  | none => .error "missing field direction"

/-- Derived deserializer of Article: each known key is looked up and
decoded with the field rules above; unknown keys are ignored, as serde
does without deny_unknown_fields. -/
def Article.fromJson : Json → Except String Article
  | .obj kvs =>
    Except.bind (decodeOptString (Json.getField kvs "author")) (fun author =>
    Except.bind (decodeDefString (Json.getField kvs "content")) (fun content =>
    Except.bind (decodeDate (Json.getField kvs "date_published")) (fun date_published =>
    Except.bind (decodeOptString (Json.getField kvs "dek")) (fun dek =>
    Except.bind (decodeDirection (Json.getField kvs "direction")) (fun direction =>
    Except.bind (decodeDefString (Json.getField kvs "excerpt")) (fun excerpt =>
    Except.bind (decodeUriOpt (Json.getField kvs "lead_image_url")) (fun lead_image_url =>
    Except.bind (decodeUriOpt (Json.getField kvs "next_page_url")) (fun next_page_url =>
    Except.bind (decodeDefU64 1 (Json.getField kvs "rendered_pages")) (fun rendered_pages =>
    Except.bind (decodeDefString (Json.getField kvs "title")) (fun title =>
    Except.bind (decodeDefU64 1 (Json.getField kvs "total_pages")) (fun total_pages =>
    Except.bind (decodeUriReq (Json.getField kvs "url")) (fun url =>
    Except.bind (decodeDefU64 0 (Json.getField kvs "word_count")) (fun word_count =>
    .ok { author := author, content := content, date_published := date_published,
          dek := dek, direction := direction, excerpt := excerpt,
          lead_image_url := lead_image_url, next_page_url := next_page_url,
          rendered_pages := rendered_pages, title := title,
          total_pages := total_pages, url := url, word_count := word_count })))))))))))))
  | _ => .error "invalid type: expected a map"

/-- Serialization of an optional string: none becomes null. -/
def optStrToJson : Option String → Json
  | some s => .str s
  | none => .null

/-- Serialization of an optional Uri through serde_uri_opt: none is
serialized with serialize_none, a value with its Display form. -/
def optUriToJson : Option Uri → Json
  | some u => .str u.raw
  | none => .null

/-- Serialization of the optional chrono timestamp. -/
def optDateToJson : Option DateTime → Json
  | some d => .str d.raw
  | none => .null

/-- Serialization of the direction enum with lowercase renaming. -/
def TextDirection.toJson : TextDirection → Json
  | TextDirection.Ltr => .str "ltr"
  | TextDirection.Rtl => .str "rtl"

/-- Derived serializer of Article: every field is emitted in
declaration order, the skipped _ext field excepted. -/
def Article.toJson (a : Article) : Json :=
  .obj [
    ("author", optStrToJson a.author),
    ("content", .str a.content),
    ("date_published", optDateToJson a.date_published),
    ("dek", optStrToJson a.dek),
    ("direction", a.direction.toJson),
    ("excerpt", .str a.excerpt),
    ("lead_image_url", optUriToJson a.lead_image_url),
    ("next_page_url", optUriToJson a.next_page_url),
    ("rendered_pages", .num (a.rendered_pages : Int)),
    ("title", .str a.title),
    ("total_pages", .num (a.total_pages : Int)),
    ("url", .str a.url.raw),
    ("word_count", .num (a.word_count : Int))]

/-- Fields of the Err variant of ParserResult in src/lib.rs: msg is the
optional message key, msgs the messages key with a default of the empty
string. -/
structure ErrFields where
  msg : Option String
  msgs : String
deriving DecidableEq, Repr

/-- Deserializer of the Err variant envelope. -/
def ErrFields.fromJson : Json → Except String ErrFields
  | .obj kvs =>
    Except.bind (decodeOptString (Json.getField kvs "message")) (fun msg =>
    Except.bind (decodeDefString (Json.getField kvs "messages")) (fun msgs =>
    .ok { msg := msg, msgs := msgs }))
  | _ => .error "invalid type: expected a map"

/-- Untagged result union of src/lib.rs. -/
inductive ParserResult where
  | Ok : Article → ParserResult
  | Err : Option String → String → ParserResult
deriving DecidableEq, Repr

/-- Deserialization of the untagged union: serde tries the variants in
declaration order against the buffered value, first Ok with the Article
schema, then Err with the envelope fields, and fails when neither
matches. -/
def ParserResult.fromJson (j : Json) : Except String ParserResult :=
  match Article.fromJson j with
  | .ok a => .ok (.Ok a)
  | .error _ =>
    match ErrFields.fromJson j with
    | .ok e => .ok (.Err e.msg e.msgs)
    | .error _ => .error "data did not match any variant of untagged enum ParserResult"

/-- Hyper error kinds relevant to the library: the uri kind reached
through the From UriError conversion of src/error.rs, and transport
failures. -/
inductive HttpErrorKind where
  | uri : HttpErrorKind
  | transport : HttpErrorKind
deriving DecidableEq, Repr

/-- Error kinds of src/error.rs: Msg is produced by bail, Http wraps
hyper errors, Json wraps serde_json failures, Tls wraps native_tls
failures. The payloads of the three foreign kinds are never inspected
by the library and are not modelled. -/
inductive Error where
  | Msg : String → Error
  | Http : HttpErrorKind → Error
  | Json : Error
  | Tls : Error
deriving DecidableEq, Repr

/-- Constant service endpoint of src/lib.rs. -/
def ENDPOINT : String := "https://mercury.postlight.com/parser"

/-- Models build_url of src/lib.rs: the request string is the constant
endpoint, then the literal query prefix, then the resource appended
verbatim, and the result must parse as a Uri. -/
def build_url (resource : String) : Except Error Uri :=
  match Uri.parseStr (ENDPOINT ++ "?url=" ++ resource) with
  | some u => .ok u
  | none => .error (.Http .uri)

/-- Outcome of the single network exchange, abstracting the transport:
either a transport or TLS level failure, or a fully buffered response
body. A body that is not valid JSON is modelled as none. -/
inductive NetOutcome where
  | transport : NetOutcome
  | response : Option Json → NetOutcome

/-- Models the response-body handling in Mercury::parse: the buffered
bytes are deserialized as the untagged ParserResult, the Ok variant
yields the article, the Err variant raises bail with msg unwrap_or
msgs, and a serde_json failure, including bytes that are not valid
JSON, surfaces as a Json error. -/
def Mercury.parseBody : Option Json → Except Error Article
  | none => .error .Json
  | some j =>
    match ParserResult.fromJson j with
    | .ok (.Ok a) => .ok a
    | .ok (.Err msg msgs) => .error (.Msg (msg.getD msgs))
    | .error _ => .error .Json

/-- Models Mercury::parse of src/lib.rs: the request url is built
first, failing with the uri error before the network is consulted, then
the single exchange runs and its body is handled. -/
def Mercury.parse (resource : String) (net : NetOutcome) : Except Error Article :=
  match build_url resource with
  | .error e => .error e
  | .ok _ =>
    match net with
    | .transport => .error (.Http .transport)
    | .response body => Mercury.parseBody body

/-- Modelled from the spec: the two-pass dispatch described in sections
4 and 9 of the specification, namely try the success schema first, then
the error envelope, and surface a deserialization error when both fail
or the bytes are not JSON. -/
def specTwoPassDispatch : Option Json → Except Error Article
  | none => .error .Json
  | some j =>
    match Article.fromJson j with
    | .ok a => .ok a
    | .error _ =>
      match ErrFields.fromJson j with
      | .ok e => .error (.Msg (e.msg.getD e.msgs))
      | .error _ => .error .Json

/-- Modelled from the spec: the API error text rule of section 4, the
message field if present as a string, otherwise the messages field,
otherwise the empty string. -/
def specFailureText (kvs : List (String × Json)) : String :=
  match Json.getField kvs "message" with
  | some (.str m) => m
  | _ =>
    match Json.getField kvs "messages" with
    | some (.str s) => s
    | _ => ""

/-- Failure test for Except values, complementing Except.isOk. -/
def Except.isErr : Except ε α → Bool
  | .error _ => true
  | .ok _ => false

/-- Shape of a plain optional string field: absent, null or a string. -/
def optStringShape : Option Json → Bool
  | none => true
  | some .null => true
  | some (.str _) => true
  | some _ => false

/-- Shape of a defaulted string field: absent or a string. -/
def defStringShape : Option Json → Bool
  | none => true
  | some (.str _) => true
  | some _ => false

/-- Shape of the optional timestamp field. -/
def dateShape : Option Json → Bool
  | none => true
  | some .null => true
  | some (.str s) => isValidRfc3339 s
  | some _ => false

/-- Shape of an optional Uri field: absent, null or a parsable
string. -/
def uriOptShape : Option Json → Bool
  | none => true
  | some .null => true
  | some (.str s) => (Uri.parseStr s).isSome
  | some _ => false

/-- Shape of a defaulted u64 field: absent or a number in range. -/
def u64Shape : Option Json → Bool
  | none => true
  | some (.num n) => decide (0 ≤ n ∧ n < 2 ^ 64)
  | some _ => false

/-- Shape of an optional Uri field when a value is required to be
present, which is what the deserializer demands for a with-attribute
field without a serde default: an explicit null or a parsable
string. -/
def uriOptReqShape : Option Json → Bool
  | some .null => true
  | some (.str s) => (Uri.parseStr s).isSome
  | _ => false

/-- Shape of the direction field when treated as optional, as the
specification does. -/
def dirOptShape : Option Json → Bool
  | none => true
  | some (.str s) => s == "ltr" || s == "rtl"
  | some _ => false

/-- Shape of the direction field when a value is required to be
present. -/
def dirReqShape : Option Json → Bool
  | some (.str s) => s == "ltr" || s == "rtl"
  | _ => false

/-- Shape of the mandatory url field: present and parsable. -/
def urlReqShape : Option Json → Bool
  | some (.str s) => (Uri.parseStr s).isSome
  | _ => false

/-- Modelled from the spec: the success response shape of section 6, a
JSON object whose known keys are well-typed when present, every key
optional except url; the specification treats direction as
defaultable. -/
def Json.isSuccessShape : Json → Bool
  | .obj kvs =>
    optStringShape (Json.getField kvs "author")
      && defStringShape (Json.getField kvs "content")
      && dateShape (Json.getField kvs "date_published")
      && optStringShape (Json.getField kvs "dek")
      && dirOptShape (Json.getField kvs "direction")
      && defStringShape (Json.getField kvs "excerpt")
      && uriOptShape (Json.getField kvs "lead_image_url")
      && uriOptShape (Json.getField kvs "next_page_url")
      && u64Shape (Json.getField kvs "rendered_pages")
      && defStringShape (Json.getField kvs "title")
      && u64Shape (Json.getField kvs "total_pages")
      && urlReqShape (Json.getField kvs "url")
      && u64Shape (Json.getField kvs "word_count")
  | _ => false

/-- Success shape strengthened with the keys the deserializer of
src/article.rs actually requires beyond url: a present well-formed
direction, and present lead_image_url and next_page_url keys, the
latter two carrying a with attribute and no serde default. -/
def Json.isSuccessShapeStrict : Json → Bool
  | .obj kvs =>
    Json.isSuccessShape (.obj kvs) && dirReqShape (Json.getField kvs "direction")
      && uriOptReqShape (Json.getField kvs "lead_image_url")
      && uriOptReqShape (Json.getField kvs "next_page_url")
  | _ => false

/-- Value of an optional string field on shaped input. -/
def optStrVal : Option Json → Option String
  | some (.str s) => some s
  | _ => none

/-- Value of a defaulted string field on shaped input. -/
def defStrVal : Option Json → String
  | some (.str s) => s
  | _ => ""

/-- Value of the timestamp field on shaped input. -/
def dateVal : Option Json → Option DateTime
  | some (.str s) => some ⟨s⟩
  | _ => none

/-- Value of an optional Uri field on shaped input. -/
def uriOptVal : Option Json → Option Uri
  | some (.str s) => some ⟨s⟩
  | _ => none

/-- Value of a defaulted u64 field on shaped input. -/
def u64Val (dflt : Nat) : Option Json → Nat
  | some (.num n) => n.toNat
  | _ => dflt

/-- Value of the direction field on shaped input. -/
def dirVal : Option Json → TextDirection
  | some (.str s) => if s == "rtl" then TextDirection.Rtl else TextDirection.Ltr
  | _ => TextDirection.Ltr

/-- Value of the mandatory url field on shaped input. -/
def urlVal : Option Json → Uri
  | some (.str s) => ⟨s⟩
  | _ => ⟨""⟩

/-- Article obtained from a shaped object, field by field. -/
def articleOfFields (kvs : List (String × Json)) : Article :=
  { author := optStrVal (Json.getField kvs "author"),
    content := defStrVal (Json.getField kvs "content"),
    date_published := dateVal (Json.getField kvs "date_published"),
    dek := optStrVal (Json.getField kvs "dek"),
    direction := dirVal (Json.getField kvs "direction"),
    excerpt := defStrVal (Json.getField kvs "excerpt"),
    lead_image_url := uriOptVal (Json.getField kvs "lead_image_url"),
    next_page_url := uriOptVal (Json.getField kvs "next_page_url"),
    rendered_pages := u64Val 1 (Json.getField kvs "rendered_pages"),
    title := defStrVal (Json.getField kvs "title"),
    total_pages := u64Val 1 (Json.getField kvs "total_pages"),
    url := urlVal (Json.getField kvs "url"),
    word_count := u64Val 0 (Json.getField kvs "word_count") }

/-- Expected serialized field for a defaultable key: the input value
when the key is present, otherwise the default rendered explicitly. -/
def roundTripField (kvs : List (String × Json)) (k : String) (dflt : Json) : Json :=
  (Json.getField kvs k).getD dflt

/-- Expected serialized field for a required key (url, direction,
lead_image_url, next_page_url): the input value itself. These keys
must be present for deserialization to succeed, so the null fallback of
the total function is never exercised on round-trip inputs. -/
def requiredField (kvs : List (String × Json)) (k : String) : Json :=
  (Json.getField kvs k).getD .null

/-- Expected object produced by deserializing a decodable object and
serializing the result: every known key in declaration order, holding
the input value for present and required keys and the rendered default
for the absent defaultable ones. -/
def expectedRoundTrip (kvs : List (String × Json)) : List (String × Json) :=
  [("author", roundTripField kvs "author" .null),
   ("content", roundTripField kvs "content" (.str "")),
   ("date_published", roundTripField kvs "date_published" .null),
   ("dek", roundTripField kvs "dek" .null),
   ("direction", requiredField kvs "direction"),
   ("excerpt", roundTripField kvs "excerpt" (.str "")),
   ("lead_image_url", requiredField kvs "lead_image_url"),
   ("next_page_url", requiredField kvs "next_page_url"),
   ("rendered_pages", roundTripField kvs "rendered_pages" (.num 1)),
   ("title", roundTripField kvs "title" (.str "")),
   ("total_pages", roundTripField kvs "total_pages" (.num 1)),
   ("url", requiredField kvs "url"),
   ("word_count", roundTripField kvs "word_count" (.num 0))]

/-- Reduction of bind on a successful Except value. -/
theorem except_bind_ok {ε α β : Type} (a : α) (f : α → Except ε β) :
    Except.bind (Except.ok a) f = f a := rfl

/-- Reduction of bind on a failed Except value. -/
theorem except_bind_err {ε α β : Type} (e : ε) (f : α → Except ε β) :
    Except.bind (Except.error e) f = Except.error e := rfl

/-- A bind fails whenever every continuation fails, regardless of the
first component. -/
theorem except_bind_isErr_all {ε α β : Type} (x : Except ε α) (f : α → Except ε β)
    (h : ∀ a, (f a).isErr = true) : (Except.bind x f).isErr = true := by
  cases x with
  | error e => rfl
  | ok a => exact h a

/-- On shaped input the optional string decoder succeeds with the field
value. -/
theorem decodeOptString_shape_eq (o : Option Json) (h : optStringShape o = true) :
    decodeOptString o = .ok (optStrVal o) := by
  cases o with
  | none => rfl
  | some j =>
    cases j with
    | null => rfl
    | str s => rfl
    | bool b => simp [optStringShape] at h
    | num n => simp [optStringShape] at h
    | arr l => simp [optStringShape] at h
    | obj l => simp [optStringShape] at h

/-- On shaped input the defaulted string decoder succeeds with the
field value. -/
theorem decodeDefString_shape_eq (o : Option Json) (h : defStringShape o = true) :
    decodeDefString o = .ok (defStrVal o) := by
  cases o with
  | none => rfl
  | some j =>
    cases j with
    | str s => rfl
    | null => simp [defStringShape] at h
    | bool b => simp [defStringShape] at h
    | num n => simp [defStringShape] at h
    | arr l => simp [defStringShape] at h
    | obj l => simp [defStringShape] at h

/-- On shaped input the defaulted u64 decoder succeeds with the field
value. -/
theorem decodeDefU64_shape_eq (dflt : Nat) (o : Option Json) (h : u64Shape o = true) :
    decodeDefU64 dflt o = .ok (u64Val dflt o) := by
  cases o with
  | none => rfl
  | some j =>
    cases j with
    | num n =>
      simp only [u64Shape, decide_eq_true_eq] at h
      rw [show decodeDefU64 dflt (some (.num n)) =
        (if 0 ≤ n ∧ n < 2 ^ 64 then .ok n.toNat else .error "invalid number") from rfl, if_pos h]
      rfl
    | null => simp [u64Shape] at h
    | bool b => simp [u64Shape] at h
    | str s => simp [u64Shape] at h
    | arr l => simp [u64Shape] at h
    | obj l => simp [u64Shape] at h

/-- On shaped input the timestamp decoder succeeds with the field
value. -/
theorem decodeDate_shape_eq (o : Option Json) (h : dateShape o = true) :
    decodeDate o = .ok (dateVal o) := by
  cases o with
  | none => rfl
  | some j =>
    cases j with
    | null => rfl
    | str s =>
      simp only [dateShape] at h
      simp [decodeDate, dateVal, h]
    | bool b => simp [dateShape] at h
    | num n => simp [dateShape] at h
    | arr l => simp [dateShape] at h
    | obj l => simp [dateShape] at h

/-- A successful Uri parse returns the input string itself. -/
theorem Uri.parseStr_raw (s : String) (u : Uri) (h : Uri.parseStr s = some u) :
    u.raw = s := by
  unfold Uri.parseStr at h
  split at h
  · cases h
  · split at h
    · cases h; rfl
    · cases h

/-- A Uri parse known to succeed returns exactly the wrapped input. -/
theorem Uri.parseStr_isSome_eq (s : String) (h : (Uri.parseStr s).isSome = true) :
    Uri.parseStr s = some ⟨s⟩ := by
  cases hp : Uri.parseStr s with
  | none => rw [hp] at h; cases h
  | some u =>
    have := Uri.parseStr_raw s u hp
    cases u
    simp_all

/-- On present shaped input the optional Uri decoder succeeds with the
field value. -/
theorem decodeUriOpt_shape_eq (o : Option Json) (h : uriOptReqShape o = true) :
    decodeUriOpt o = .ok (uriOptVal o) := by
  cases o with
  | none => simp [uriOptReqShape] at h
  | some j =>
    cases j with
    | null => rfl
    | str s =>
      simp only [uriOptReqShape] at h
      simp [decodeUriOpt, uriOptVal, Uri.parseStr_isSome_eq s h]
    | bool b => simp [uriOptReqShape] at h
    | num n => simp [uriOptReqShape] at h
    | arr l => simp [uriOptReqShape] at h
    | obj l => simp [uriOptReqShape] at h

/-- On shaped input the mandatory url decoder succeeds with the field
value. -/
theorem decodeUriReq_shape_eq (o : Option Json) (h : urlReqShape o = true) :
    decodeUriReq o = .ok (urlVal o) := by
  cases o with
  | none => simp [urlReqShape] at h
  | some j =>
    cases j with
    | str s =>
      simp only [urlReqShape] at h
      simp [decodeUriReq, urlVal, Uri.parseStr_isSome_eq s h]
    | null => simp [urlReqShape] at h
    | bool b => simp [urlReqShape] at h
    | num n => simp [urlReqShape] at h
    | arr l => simp [urlReqShape] at h
    | obj l => simp [urlReqShape] at h

/-- On present shaped input the direction decoder succeeds with the
field value. -/
theorem decodeDirection_shape_eq (o : Option Json) (h : dirReqShape o = true) :
    decodeDirection o = .ok (dirVal o) := by
  cases o with
  | none => simp [dirReqShape] at h
  | some j =>
    cases j with
    | str s =>
      simp only [dirReqShape, Bool.or_eq_true, beq_iff_eq] at h
      rcases h with h | h <;> subst h <;> rfl
    | null => simp [dirReqShape] at h
    | bool b => simp [dirReqShape] at h
    | num n => simp [dirReqShape] at h
    | arr l => simp [dirReqShape] at h
    | obj l => simp [dirReqShape] at h

/-- Master decode lemma: on an object satisfying the success shape with
present direction, lead_image_url and next_page_url keys, the Article
deserializer succeeds and yields the field-by-field value. -/
theorem Article.fromJson_shaped (kvs : List (String × Json))
    (h : Json.isSuccessShapeStrict (.obj kvs) = true) :
    Article.fromJson (.obj kvs) = .ok (articleOfFields kvs) := by
  simp only [Json.isSuccessShapeStrict, Json.isSuccessShape, Bool.and_eq_true, and_assoc] at h
  obtain ⟨ha, hc, hd, hk, _hdo, he, _hl0, _hn0, hr, ht, htp, hu, hw, hdir, hl, hn⟩ := h
  simp only [Article.fromJson,
    decodeOptString_shape_eq _ ha, decodeDefString_shape_eq _ hc,
    decodeDate_shape_eq _ hd, decodeOptString_shape_eq _ hk,
    decodeDirection_shape_eq _ hdir, decodeDefString_shape_eq _ he,
    decodeUriOpt_shape_eq _ hl, decodeUriOpt_shape_eq _ hn,
    decodeDefU64_shape_eq _ _ hr, decodeDefString_shape_eq _ ht,
    decodeDefU64_shape_eq _ _ htp, decodeUriReq_shape_eq _ hu,
    decodeDefU64_shape_eq _ _ hw, except_bind_ok]
  rfl

/-- The Article deserializer fails on any object whose direction key is
absent. -/
theorem Article.fromJson_isErr_of_no_direction (kvs : List (String × Json))
    (h : Json.getField kvs "direction" = none) :
    (Article.fromJson (.obj kvs)).isErr = true := by
  simp only [Article.fromJson]
  apply except_bind_isErr_all; intro author
  apply except_bind_isErr_all; intro content
  apply except_bind_isErr_all; intro date_published
  apply except_bind_isErr_all; intro dek
  rw [h]
  rfl

/-- The Article deserializer fails on any object whose lead image key
holds a string that does not parse as a Uri. -/
theorem Article.fromJson_isErr_of_bad_lead (kvs : List (String × Json)) (s : String)
    (hf : Json.getField kvs "lead_image_url" = some (.str s))
    (hp : Uri.parseStr s = none) :
    (Article.fromJson (.obj kvs)).isErr = true := by
  simp only [Article.fromJson]
  apply except_bind_isErr_all; intro author
  apply except_bind_isErr_all; intro content
  apply except_bind_isErr_all; intro date_published
  apply except_bind_isErr_all; intro dek
  apply except_bind_isErr_all; intro direction
  apply except_bind_isErr_all; intro excerpt
  rw [hf]
  simp [decodeUriOpt, hp, except_bind_err, Except.isErr]

/-- The Article deserializer fails on any object whose lead image key
is absent, the field being required by serde for a with-attribute
field without a default. -/
theorem Article.fromJson_isErr_of_no_lead (kvs : List (String × Json))
    (h : Json.getField kvs "lead_image_url" = none) :
    (Article.fromJson (.obj kvs)).isErr = true := by
  simp only [Article.fromJson]
  apply except_bind_isErr_all; intro author
  apply except_bind_isErr_all; intro content
  apply except_bind_isErr_all; intro date_published
  apply except_bind_isErr_all; intro dek
  apply except_bind_isErr_all; intro direction
  apply except_bind_isErr_all; intro excerpt
  rw [h]
  rfl

/-- The Article deserializer fails on any object whose next page key is
absent, for the same reason as the lead image key. -/
theorem Article.fromJson_isErr_of_no_next (kvs : List (String × Json))
    (h : Json.getField kvs "next_page_url" = none) :
    (Article.fromJson (.obj kvs)).isErr = true := by
  simp only [Article.fromJson]
  apply except_bind_isErr_all; intro author
  apply except_bind_isErr_all; intro content
  apply except_bind_isErr_all; intro date_published
  apply except_bind_isErr_all; intro dek
  apply except_bind_isErr_all; intro direction
  apply except_bind_isErr_all; intro excerpt
  apply except_bind_isErr_all; intro lead_image_url
  rw [h]
  rfl

/-- Serializing the decoded optional string reproduces the input field,
with null rendered for an absent key. -/
theorem optStrToJson_val (o : Option Json) (h : optStringShape o = true) :
    optStrToJson (optStrVal o) = o.getD .null := by
  cases o with
  | none => rfl
  | some j =>
    cases j with
    | null => rfl
    | str s => rfl
    | bool b => simp [optStringShape] at h
    | num n => simp [optStringShape] at h
    | arr l => simp [optStringShape] at h
    | obj l => simp [optStringShape] at h

/-- Serializing the decoded defaulted string reproduces the input
field, with the empty string rendered for an absent key. -/
theorem defStrToJson_val (o : Option Json) (h : defStringShape o = true) :
    Json.str (defStrVal o) = o.getD (.str "") := by
  cases o with
  | none => rfl
  | some j =>
    cases j with
    | str s => rfl
    | null => simp [defStringShape] at h
    | bool b => simp [defStringShape] at h
    | num n => simp [defStringShape] at h
    | arr l => simp [defStringShape] at h
    | obj l => simp [defStringShape] at h

/-- Serializing the decoded timestamp reproduces the input field. -/
theorem dateToJson_val (o : Option Json) (h : dateShape o = true) :
    optDateToJson (dateVal o) = o.getD .null := by
  cases o with
  | none => rfl
  | some j =>
    cases j with
    | null => rfl
    | str s => rfl
    | bool b => simp [dateShape] at h
    | num n => simp [dateShape] at h
    | arr l => simp [dateShape] at h
    | obj l => simp [dateShape] at h

/-- Serializing the decoded direction reproduces the input field, which
is always present when decoding succeeded. -/
theorem dirToJson_val (o : Option Json) (h : dirReqShape o = true) :
    (dirVal o).toJson = o.getD .null := by
  cases o with
  | none => simp [dirReqShape] at h
  | some j =>
    cases j with
    | str s =>
      simp only [dirReqShape, Bool.or_eq_true, beq_iff_eq] at h
      rcases h with h | h <;> subst h <;> rfl
    | null => simp [dirReqShape] at h
    | bool b => simp [dirReqShape] at h
    | num n => simp [dirReqShape] at h
    | arr l => simp [dirReqShape] at h
    | obj l => simp [dirReqShape] at h

/-- Serializing a decoded optional Uri reproduces the input field,
which is always present when decoding succeeded. -/
theorem uriOptToJson_val (o : Option Json) (h : uriOptReqShape o = true) :
    optUriToJson (uriOptVal o) = o.getD .null := by
  cases o with
  | none => simp [uriOptReqShape] at h
  | some j =>
    cases j with
    | null => rfl
    | str s => rfl
    | bool b => simp [uriOptReqShape] at h
    | num n => simp [uriOptReqShape] at h
    | arr l => simp [uriOptReqShape] at h
    | obj l => simp [uriOptReqShape] at h

/-- Serializing a decoded u64 field reproduces the input number, with
the default rendered for an absent key. -/
theorem u64ToJson_val (d : Nat) (o : Option Json) (h : u64Shape o = true) :
    Json.num (u64Val d o : Int) = o.getD (.num (d : Int)) := by
  cases o with
  | none => rfl
  | some j =>
    cases j with
    | num n =>
      simp only [u64Shape, decide_eq_true_eq] at h
      simp [u64Val, Int.toNat_of_nonneg h.1]
    | null => simp [u64Shape] at h
    | bool b => simp [u64Shape] at h
    | str s => simp [u64Shape] at h
    | arr l => simp [u64Shape] at h
    | obj l => simp [u64Shape] at h

/-- Serializing the decoded mandatory url reproduces the input field,
which is always present when decoding succeeded. -/
theorem urlToJson_val (o : Option Json) (h : urlReqShape o = true) :
    Json.str (urlVal o).raw = o.getD .null := by
  cases o with
  | none => simp [urlReqShape] at h
  | some j =>
    cases j with
    | str s => rfl
    | null => simp [urlReqShape] at h
    | bool b => simp [urlReqShape] at h
    | num n => simp [urlReqShape] at h
    | arr l => simp [urlReqShape] at h
    | obj l => simp [urlReqShape] at h

/-- The bail text computed from the decoded envelope agrees with the
message rule stated by the specification. -/
theorem specFailureText_eq (kvs : List (String × Json))
    (hm : optStringShape (Json.getField kvs "message") = true)
    (hms : defStringShape (Json.getField kvs "messages") = true) :
    (optStrVal (Json.getField kvs "message")).getD (defStrVal (Json.getField kvs "messages"))
      = specFailureText kvs := by
  unfold specFailureText
  cases h1 : Json.getField kvs "message" with
  | some j1 =>
    rw [h1] at hm
    cases j1 with
    | str m => simp [optStrVal]
    | null =>
      cases h2 : Json.getField kvs "messages" with
      | some j2 =>
        rw [h2] at hms
        cases j2 with
        | str s => simp [optStrVal, defStrVal]
        | null => simp [defStringShape] at hms
        | bool b => simp [defStringShape] at hms
        | num n => simp [defStringShape] at hms
        | arr l => simp [defStringShape] at hms
        | obj l => simp [defStringShape] at hms
      | none => simp [optStrVal, defStrVal]
    | bool b => simp [optStringShape] at hm
    | num n => simp [optStringShape] at hm
    | arr l => simp [optStringShape] at hm
    | obj l => simp [optStringShape] at hm
  | none =>
    cases h2 : Json.getField kvs "messages" with
    | some j2 =>
      rw [h2] at hms
      cases j2 with
      | str s => simp [optStrVal, defStrVal]
      | null => simp [defStringShape] at hms
      | bool b => simp [defStringShape] at hms
      | num n => simp [defStringShape] at hms
      | arr l => simp [defStringShape] at hms
      | obj l => simp [defStringShape] at hms
    | none => simp [optStrVal, defStrVal]

/-- On a body matching the failure envelope and not the success shape,
the response handler raises bail with the text given by the
specification rule. -/
theorem parseBody_failure_envelope (kvs : List (String × Json))
    (hart : (Article.fromJson (.obj kvs)).isErr = true)
    (hm : optStringShape (Json.getField kvs "message") = true)
    (hms : defStringShape (Json.getField kvs "messages") = true) :
    Mercury.parseBody (some (.obj kvs)) = .error (.Msg (specFailureText kvs)) := by
  have henv : ErrFields.fromJson (.obj kvs) =
      .ok ⟨optStrVal (Json.getField kvs "message"), defStrVal (Json.getField kvs "messages")⟩ := by
    simp only [ErrFields.fromJson, decodeOptString_shape_eq _ hm,
      decodeDefString_shape_eq _ hms, except_bind_ok]
  cases ha : Article.fromJson (.obj kvs) with
  | ok a => rw [ha] at hart; simp [Except.isErr] at hart
  | error e =>
    simp only [Mercury.parseBody, ParserResult.fromJson, ha, henv]
    rw [specFailureText_eq kvs hm hms]

/-- Claim C1 counterexample: the object holding only a valid url key
matches the success shape of the specification, yet Article
deserialization fails, because the direction field of src/article.rs
carries no serde default and its absence is a missing-field error. -/
theorem claim1_counterexample :
    Json.isSuccessShape (.obj [("url", .str "https://example.com")]) = true ∧
    (Article.fromJson (.obj [("url", .str "https://example.com")])).isOk = false :=
  ⟨rfl, rfl⟩

/-- Claim C1, amended: for every JSON object matching the success shape
in which the direction, lead_image_url and next_page_url keys are also
present, Article deserialization succeeds even when any of the other
optional or defaultable keys is absent; absence of url, direction,
lead_image_url or next_page_url may make it fail, these being the four
keys without a serde default treatment. -/
theorem claim1_success_shape_decodes (kvs : List (String × Json))
    (hnd : (kvs.map Prod.fst).Nodup)
    (h : Json.isSuccessShapeStrict (.obj kvs) = true) :
    (Article.fromJson (.obj kvs)).isOk = true := by
  rw [Article.fromJson_shaped kvs h]
  rfl

/-- Witness for claim C1 at a concrete four-key object. -/
theorem claim1_witness :
    (Article.fromJson (.obj [("url", .str "https://example.com"),
      ("direction", .str "ltr"), ("lead_image_url", .null),
      ("next_page_url", .null)])).isOk = true :=
  claim1_success_shape_decodes
    [("url", .str "https://example.com"), ("direction", .str "ltr"),
     ("lead_image_url", .null), ("next_page_url", .null)] (by decide) (by rfl)

/-- Claim C2: parsing the buffered body is a two-pass shape dispatch
with success tried first; the handler of src/lib.rs built on the
untagged union equals the dispatch written from the words of the
specification. -/
theorem claim2_two_pass_dispatch (body : Option Json) :
    Mercury.parseBody body = specTwoPassDispatch body := by
  cases body with
  | none => rfl
  | some j =>
    cases ha : Article.fromJson j with
    | ok a => simp [Mercury.parseBody, specTwoPassDispatch, ParserResult.fromJson, ha]
    | error e =>
      cases he : ErrFields.fromJson j with
      | ok e2 => simp [Mercury.parseBody, specTwoPassDispatch, ParserResult.fromJson, ha, he]
      | error e2 => simp [Mercury.parseBody, specTwoPassDispatch, ParserResult.fromJson, ha, he]

/-- Claim C3: whenever the body is an object that fails the success
shape and carries well-typed message and messages keys, parse fails
with an API error whose text is the message field if present, otherwise
the messages field, otherwise the empty string. -/
theorem claim3_failure_envelope_api_error (kvs : List (String × Json))
    (hnd : (kvs.map Prod.fst).Nodup)
    (hart : (Article.fromJson (.obj kvs)).isErr = true)
    (hm : optStringShape (Json.getField kvs "message") = true)
    (hms : defStringShape (Json.getField kvs "messages") = true) :
    Mercury.parseBody (some (.obj kvs)) = .error (.Msg (specFailureText kvs)) :=
  parseBody_failure_envelope kvs hart hm hms

/-- Witness for claim C3 at the envelope carrying an Invalid URL
message. -/
theorem claim3_witness :
    Mercury.parseBody (some (.obj [("message", .str "Invalid URL")]))
      = .error (.Msg "Invalid URL") :=
  claim3_failure_envelope_api_error [("message", .str "Invalid URL")]
    (by decide) (by rfl) (by rfl) (by rfl)

/-- Claim C4 counterexample: the documented three-key success body
omits the required direction, lead_image_url and next_page_url keys,
so the Article pass fails, the error envelope matches with neither
message key, and parse yields an API error with empty text instead of
the claimed Article. -/
theorem claim4_counterexample :
    Mercury.parse "https://example.com"
      (.response (some (.obj [("url", .str "https://example.com"), ("title", .str "T"),
        ("content", .str "<p>x</p>")])))
      = .error (.Msg "") := by rfl

/-- Claim C4, amended: the three-key body yields an API error with
empty text; adding direction alone still yields the empty API error,
because lead_image_url and next_page_url are also required; with
direction ltr and null lead_image_url and next_page_url added, parse
returns the Article with the claimed field values. -/
theorem claim4_amended :
    Mercury.parse "https://example.com"
      (.response (some (.obj [("url", .str "https://example.com"), ("title", .str "T"),
        ("content", .str "<p>x</p>")])))
      = .error (.Msg "") ∧
    Mercury.parse "https://example.com"
      (.response (some (.obj [("url", .str "https://example.com"), ("title", .str "T"),
        ("content", .str "<p>x</p>"), ("direction", .str "ltr")])))
      = .error (.Msg "") ∧
    Mercury.parse "https://example.com"
      (.response (some (.obj [("url", .str "https://example.com"), ("title", .str "T"),
        ("content", .str "<p>x</p>"), ("direction", .str "ltr"),
        ("lead_image_url", .null), ("next_page_url", .null)])))
      = .ok { author := none, content := "<p>x</p>", date_published := none, dek := none,
              direction := .Ltr, excerpt := "", lead_image_url := none, next_page_url := none,
              rendered_pages := 1, title := "T", total_pages := 1,
              url := ⟨"https://example.com"⟩, word_count := 0 } :=
  ⟨rfl, rfl, rfl⟩

/-- Claim C5: the request string is the constant endpoint with the
resource appended verbatim to the fixed query parameter; when that
string does not parse as a Uri, parse fails with the uri error whatever
the network would have answered, and a successfully built request
carries exactly the composed string. -/
theorem claim5_url_composition (resource : String) :
    (∀ net : NetOutcome, Uri.parseStr (ENDPOINT ++ "?url=" ++ resource) = none →
      Mercury.parse resource net = .error (.Http .uri)) ∧
    (∀ u : Uri, build_url resource = .ok u → u.raw = ENDPOINT ++ "?url=" ++ resource) := by
  constructor
  · intro net h
    simp [Mercury.parse, build_url, h]
  · intro u h
    unfold build_url at h
    cases hp : Uri.parseStr (ENDPOINT ++ "?url=" ++ resource) with
    | none => rw [hp] at h; cases h
    | some u2 =>
      rw [hp] at h
      injection h with h2
      subst h2
      exact Uri.parseStr_raw _ _ hp

/-- Witness for claim C5: a resource with a space fails before the
network, and a valid resource composes the documented request
string. -/
theorem claim5_witness :
    Mercury.parse "bad uri" (.response (some .null)) = .error (.Http .uri) ∧
    (Uri.mk "https://mercury.postlight.com/parser?url=https://example.com").raw
      = ENDPOINT ++ "?url=" ++ "https://example.com" :=
  ⟨(claim5_url_composition "bad uri").1 (.response (some .null)) (by rfl),
   (claim5_url_composition "https://example.com").2
     ⟨"https://mercury.postlight.com/parser?url=https://example.com"⟩ (by rfl)⟩

/-- Claim C6 counterexample: an object with valid url and content keys
matches the success shape while omitting direction, and Article
deserialization fails instead of defaulting the direction to
left-to-right. -/
theorem claim6_counterexample :
    Json.isSuccessShape (.obj [("url", .str "https://example.com"),
      ("content", .str "c")]) = true ∧
    (Article.fromJson (.obj [("url", .str "https://example.com"),
      ("content", .str "c")])).isOk = false :=
  ⟨rfl, rfl⟩

/-- Claim C6, amended: on a shaped object with the required direction,
lead_image_url and next_page_url keys present, absent content, excerpt
and title keys deserialize to empty strings and absent rendered_pages
and total_pages keys deserialize to one; an object whose direction key
is absent instead fails deserialization, there being no serde default
for that field. -/
theorem claim6_amended_defaults (kvs kvs2 : List (String × Json)) (a : Article)
    (hnd : (kvs.map Prod.fst).Nodup)
    (h : Json.isSuccessShapeStrict (.obj kvs) = true)
    (ha : Article.fromJson (.obj kvs) = .ok a)
    (hc : Json.getField kvs "content" = none)
    (he : Json.getField kvs "excerpt" = none)
    (ht : Json.getField kvs "title" = none)
    (hr : Json.getField kvs "rendered_pages" = none)
    (htp : Json.getField kvs "total_pages" = none)
    (hdir2 : Json.getField kvs2 "direction" = none) :
    a.content = "" ∧ a.excerpt = "" ∧ a.title = "" ∧
      a.rendered_pages = 1 ∧ a.total_pages = 1 ∧
      (Article.fromJson (.obj kvs2)).isErr = true := by
  rw [Article.fromJson_shaped kvs h] at ha
  injection ha with h2
  subst h2
  refine ⟨?_, ?_, ?_, ?_, ?_, Article.fromJson_isErr_of_no_direction kvs2 hdir2⟩
  · simp [articleOfFields, defStrVal, hc]
  · simp [articleOfFields, defStrVal, he]
  · simp [articleOfFields, defStrVal, ht]
  · simp [articleOfFields, u64Val, hr]
  · simp [articleOfFields, u64Val, htp]

/-- Witness for claim C6 at a four-key object and the empty object. -/
theorem claim6_witness :
    ({ author := none, content := "", date_published := none, dek := none,
       direction := .Ltr, excerpt := "", lead_image_url := none, next_page_url := none,
       rendered_pages := 1, title := "", total_pages := 1,
       url := ⟨"https://example.com"⟩, word_count := 0 } : Article).content = "" ∧
    ({ author := none, content := "", date_published := none, dek := none,
       direction := .Ltr, excerpt := "", lead_image_url := none, next_page_url := none,
       rendered_pages := 1, title := "", total_pages := 1,
       url := ⟨"https://example.com"⟩, word_count := 0 } : Article).excerpt = "" ∧
    ({ author := none, content := "", date_published := none, dek := none,
       direction := .Ltr, excerpt := "", lead_image_url := none, next_page_url := none,
       rendered_pages := 1, title := "", total_pages := 1,
       url := ⟨"https://example.com"⟩, word_count := 0 } : Article).title = "" ∧
    ({ author := none, content := "", date_published := none, dek := none,
       direction := .Ltr, excerpt := "", lead_image_url := none, next_page_url := none,
       rendered_pages := 1, title := "", total_pages := 1,
       url := ⟨"https://example.com"⟩, word_count := 0 } : Article).rendered_pages = 1 ∧
    ({ author := none, content := "", date_published := none, dek := none,
       direction := .Ltr, excerpt := "", lead_image_url := none, next_page_url := none,
       rendered_pages := 1, title := "", total_pages := 1,
       url := ⟨"https://example.com"⟩, word_count := 0 } : Article).total_pages = 1 ∧
    (Article.fromJson (.obj ([] : List (String × Json)))).isErr = true :=
  claim6_amended_defaults
    [("url", .str "https://example.com"), ("direction", .str "ltr"),
     ("lead_image_url", .null), ("next_page_url", .null)] [] _
    (by decide) (by rfl) (by rfl) (by rfl) (by rfl) (by rfl) (by rfl) (by rfl) (by rfl)

/-- Claim C7: deserializing a shaped object to an Article and
serializing the result reproduces every present field value and renders
every absent defaultable field explicitly with its default. -/
theorem claim7_round_trip (kvs : List (String × Json)) (a : Article)
    (hnd : (kvs.map Prod.fst).Nodup)
    (h : Json.isSuccessShapeStrict (.obj kvs) = true)
    (ha : Article.fromJson (.obj kvs) = .ok a) :
    Article.toJson a = .obj (expectedRoundTrip kvs) := by
  rw [Article.fromJson_shaped kvs h] at ha
  injection ha with h2
  subst h2
  simp only [Json.isSuccessShapeStrict, Json.isSuccessShape, Bool.and_eq_true, and_assoc] at h
  obtain ⟨hau, hc, hd, hk, _hdo, he, _hl0, _hn0, hr, ht, htp, hu, hw, hdir, hl, hn⟩ := h
  simp only [Article.toJson, articleOfFields, expectedRoundTrip, roundTripField, requiredField,
    optStrToJson_val _ hau, defStrToJson_val _ hc, dateToJson_val _ hd,
    optStrToJson_val _ hk, dirToJson_val _ hdir, defStrToJson_val _ he,
    uriOptToJson_val _ hl, uriOptToJson_val _ hn, u64ToJson_val _ _ hr,
    defStrToJson_val _ ht, u64ToJson_val _ _ htp, urlToJson_val _ hu,
    u64ToJson_val _ _ hw, Nat.cast_one, Nat.cast_zero]

/-- Witness for claim C7 at a concrete four-key object. -/
theorem claim7_witness :
    Article.toJson
      ({ author := none, content := "", date_published := none, dek := none,
         direction := .Ltr, excerpt := "", lead_image_url := none, next_page_url := none,
         rendered_pages := 1, title := "", total_pages := 1,
         url := ⟨"https://example.com"⟩, word_count := 0 } : Article)
      = .obj (expectedRoundTrip
          [("url", .str "https://example.com"), ("direction", .str "ltr"),
           ("lead_image_url", .null), ("next_page_url", .null)]) :=
  claim7_round_trip
    [("url", .str "https://example.com"), ("direction", .str "ltr"),
     ("lead_image_url", .null), ("next_page_url", .null)] _
    (by decide) (by rfl) (by rfl)

/-- Claim C8 counterexample: a lead image key holding a string that
does not parse as a Uri makes Article deserialization fail, instead of
the field becoming absent. -/
theorem claim8_counterexample :
    Uri.parseStr "ht tp" = none ∧
    (Article.fromJson (.obj [("url", .str "https://example.com"),
      ("direction", .str "ltr"), ("lead_image_url", .str "ht tp")])).isErr = true :=
  ⟨rfl, rfl⟩

/-- Claim C8, amended: the optional url fields deserialize to none
exactly when their key is present and holds null; a missing key is a
hard missing-field error, the fields carrying a with attribute and no
serde default, and a present string that fails Uri parsing is a
deserialization error, either failure aborting the whole Article
pass. -/
theorem claim8_amended (kvs kvs2 kvs3 kvs4 : List (String × Json)) (a : Article) (s : String)
    (hnd : (kvs.map Prod.fst).Nodup)
    (h : Json.isSuccessShapeStrict (.obj kvs) = true)
    (ha : Article.fromJson (.obj kvs) = .ok a)
    (hl : Json.getField kvs "lead_image_url" = some .null)
    (hn : Json.getField kvs "next_page_url" = some .null)
    (h2 : Json.getField kvs2 "lead_image_url" = some (.str s))
    (h2p : Uri.parseStr s = none)
    (h3 : Json.getField kvs3 "lead_image_url" = none)
    (h4 : Json.getField kvs4 "next_page_url" = none) :
    a.lead_image_url = none ∧ a.next_page_url = none ∧
      (Article.fromJson (.obj kvs2)).isErr = true ∧
      (Article.fromJson (.obj kvs3)).isErr = true ∧
      (Article.fromJson (.obj kvs4)).isErr = true := by
  rw [Article.fromJson_shaped kvs h] at ha
  injection ha with hEq
  subst hEq
  refine ⟨?_, ?_, Article.fromJson_isErr_of_bad_lead kvs2 s h2 h2p,
    Article.fromJson_isErr_of_no_lead kvs3 h3,
    Article.fromJson_isErr_of_no_next kvs4 h4⟩
  · simp [articleOfFields, uriOptVal, hl]
  · simp [articleOfFields, uriOptVal, hn]

/-- Witness for claim C8 at concrete objects. -/
theorem claim8_witness :
    ({ author := none, content := "", date_published := none, dek := none,
       direction := .Ltr, excerpt := "", lead_image_url := none, next_page_url := none,
       rendered_pages := 1, title := "", total_pages := 1,
       url := ⟨"https://example.com"⟩, word_count := 0 } : Article).lead_image_url = none ∧
    ({ author := none, content := "", date_published := none, dek := none,
       direction := .Ltr, excerpt := "", lead_image_url := none, next_page_url := none,
       rendered_pages := 1, title := "", total_pages := 1,
       url := ⟨"https://example.com"⟩, word_count := 0 } : Article).next_page_url = none ∧
    (Article.fromJson (.obj [("lead_image_url", Json.str "ht tp")])).isErr = true ∧
    (Article.fromJson (.obj ([] : List (String × Json)))).isErr = true ∧
    (Article.fromJson (.obj [("lead_image_url", Json.null)])).isErr = true :=
  claim8_amended
    [("url", .str "https://example.com"), ("direction", .str "ltr"),
     ("lead_image_url", .null), ("next_page_url", .null)]
    [("lead_image_url", Json.str "ht tp")] [] [("lead_image_url", Json.null)] _ "ht tp"
    (by decide) (by rfl) (by rfl) (by rfl) (by rfl) (by rfl) (by rfl) (by rfl) (by rfl)

/-- Claim C9: an object body with well-typed message and messages keys
that fails the success shape always yields an API error with the
specification text rule, never a deserialization error; a
deserialization error arises only from bytes that are not valid JSON
or from a body failing both shapes. -/
theorem claim9_error_dispatch (kvs : List (String × Json)) (j : Json)
    (hnd : (kvs.map Prod.fst).Nodup)
    (hm : optStringShape (Json.getField kvs "message") = true)
    (hms : defStringShape (Json.getField kvs "messages") = true)
    (hart : (Article.fromJson (.obj kvs)).isErr = true)
    (hj : Mercury.parseBody (some j) = .error .Json) :
    Mercury.parseBody (some (.obj kvs)) = .error (.Msg (specFailureText kvs)) ∧
      (Article.fromJson j).isErr = true ∧ (ErrFields.fromJson j).isErr = true ∧
      Mercury.parseBody none = .error .Json := by
  have hboth : (Article.fromJson j).isErr = true ∧ (ErrFields.fromJson j).isErr = true := by
    cases ha : Article.fromJson j with
    | ok a => simp [Mercury.parseBody, ParserResult.fromJson, ha] at hj
    | error e =>
      cases he : ErrFields.fromJson j with
      | ok e2 => simp [Mercury.parseBody, ParserResult.fromJson, ha, he] at hj
      | error e2 => exact ⟨rfl, rfl⟩
  exact ⟨parseBody_failure_envelope kvs hart hm hms, hboth.1, hboth.2, rfl⟩

/-- Witness for claim C9 at the empty object and an array body. -/
theorem claim9_witness :
    Mercury.parseBody (some (.obj ([] : List (String × Json)))) = .error (.Msg "") ∧
      (Article.fromJson (.arr [])).isErr = true ∧
      (ErrFields.fromJson (.arr [])).isErr = true ∧
      Mercury.parseBody none = .error .Json :=
  claim9_error_dispatch [] (.arr []) (by decide) (by rfl) (by rfl) (by rfl) (by rfl)

/-- Claim C10: for every TextDirection exactly one of is_ltr and
is_rtl holds, and the default direction is Ltr. -/
theorem claim10_direction_exclusive (d : TextDirection) :
    d.is_ltr = !d.is_rtl ∧ TextDirection.default = TextDirection.Ltr := by
  cases d <;> exact ⟨rfl, rfl⟩
